import Mathlib

/-
Verification development for the Live-Weather Telegram bot (src/main.py).

The Python source is shallowly embedded:
  * JSON payloads become structures whose optional keys are `Option` fields
    (`dict.get` with a default becomes `Option.getD`);
  * mandatory key accesses that can raise (`data["weather"][0]`) make the
    embedded formatter return `Option String`, `none` marking the raise;
  * Python floats in payloads are embedded as rationals, and the `:.1f` /
    `:.0f` format specifiers as decimal rounding (round half to even, as
    CPython does) on rationals;
  * `datetime.fromtimestamp(ts, timezone(timedelta(seconds=off)))` together
    with `strftime("%a %d %b %H:%M")` is embedded as proleptic-Gregorian
    civil-date arithmetic on `ts + off` (the C locale month / weekday
    abbreviations that CPython uses);
  * the two async Telegram handlers become pure functions from an
    environment of HTTP oracles (one per provider endpoint, returning
    `Except PyError payload` exactly as `raise_for_status` surfaces an
    `HTTPError` or a parsed JSON body) to the list of replies sent, the
    trace of outbound HTTP calls issued, and the log records emitted.
-/

/-- The Python `str.lower()` method (ASCII letters, which is all that
`Char.toLower` lowercases). -/
def pyLower (s : String) : String :=
  ⟨s.data.map Char.toLower⟩

/-- The Python `needle in hay` substring test on strings. -/
def containsSub (hay needle : String) : Bool :=
  (List.range (hay.length + 1)).any fun i => needle.data.isPrefixOf (hay.data.drop i)

/-- Embedding of `icon_for` (src/main.py:29-45): lowercase, then an ordered
chain of substring tests. -/
def icon_for (condition : String) : String :=
  let c := pyLower condition
  if containsSub c "thunder" then "⛈️"
  else if containsSub c "drizzle" then "🌦️"
  else if containsSub c "rain" then "🌧️"
  else if containsSub c "snow" then "❄️"
  else if containsSub c "clear" then "☀️"
  else if containsSub c "cloud" then "☁️"
  else if containsSub c "mist" || containsSub c "fog" || containsSub c "haze" || containsSub c "smoke" then "🌫️"
  else "🌡️"

/-- Modelled from the spec (§4.2): the fixed ordered icon table
thunder→⛈️, drizzle→🌦️, rain→🌧️, snow→❄️, clear→☀️, cloud→☁️,
{mist,fog,haze,smoke}→🌫️, used to state the refinement claim C3 that the
`icon_for` of the code is first-match lookup in this table. -/
def iconTable : List (List String × String) :=
  [(["thunder"], "⛈️"), (["drizzle"], "🌦️"), (["rain"], "🌧️"), (["snow"], "❄️"),
   (["clear"], "☀️"), (["cloud"], "☁️"), (["mist", "fog", "haze", "smoke"], "🌫️")]

/-- First-match lookup in an ordered keyword table, with fallback 🌡️. -/
def firstIcon (c : String) : List (List String × String) → String
  | [] => "🌡️"
  | (keys, e) :: rest => if keys.any (fun k => containsSub c k) then e else firstIcon c rest

/-- Modelled from the spec (§4.2): `iconFor` as case-insensitive first-match
lookup in `iconTable`. -/
def iconSpec (category : String) : String :=
  firstIcon (pyLower category) iconTable

/-- C-locale `%b` month abbreviations (month number 1-12). -/
def monthAbbr : Nat → String
  | 1 => "Jan" | 2 => "Feb" | 3 => "Mar" | 4 => "Apr" | 5 => "May" | 6 => "Jun"
  | 7 => "Jul" | 8 => "Aug" | 9 => "Sep" | 10 => "Oct" | 11 => "Nov" | _ => "Dec"

/-- C-locale `%a` weekday abbreviations (0 = Sunday). -/
def weekdayAbbr : Nat → String
  | 0 => "Sun" | 1 => "Mon" | 2 => "Tue" | 3 => "Wed" | 4 => "Thu" | 5 => "Fri" | _ => "Sat"

/-- Proleptic-Gregorian civil date (year, month, day) from days since
1970-01-01 (the Howard Hinnant `civil_from_days` algorithm). -/
def civilFromDays (days : Int) : Int × Nat × Nat :=
  let z := days + 719468
  let era := z.fdiv 146097
  let doe := (z - era * 146097).toNat
  let yoe := (doe - doe / 1460 + doe / 36524 - doe / 146096) / 365
  let doy := doe - (365 * yoe + yoe / 4 - yoe / 100)
  let mp := (5 * doy + 2) / 153
  let d := doy - (153 * mp + 2) / 5 + 1
  let m := if mp < 10 then mp + 3 else mp - 9
  ((yoe : Int) + era * 400 + (if m ≤ 2 then 1 else 0), m, d)

/-- Two-digit zero padding, as in `%d`, `%H`, `%M`. -/
def pad2 (n : Nat) : String :=
  if n < 10 then "0" ++ toString n else toString n

/-- Renders an epoch-seconds value, read as a civil timestamp, in the
`strftime` pattern `"%a %d %b %H:%M"`. -/
def fmtEpoch (localSeconds : Int) : String :=
  let days := localSeconds.fdiv 86400
  let secs := (localSeconds.fmod 86400).toNat
  let md := civilFromDays days
  weekdayAbbr (((days + 4).fmod 7).toNat) ++ " " ++ pad2 md.2.2 ++ " " ++ monthAbbr md.2.1 ++
    " " ++ pad2 (secs / 3600) ++ ":" ++ pad2 (secs % 3600 / 60)

/-- Embedding of `fmt_time` (src/main.py:47-49): the fixed-offset timezone
shifts the instant by `tz_offset_seconds` before civil rendering. -/
def fmt_time (ts tz_offset_seconds : Int) : String :=
  fmtEpoch (ts + tz_offset_seconds)

/-- Round to the nearest integer, ties to even — the rounding CPython
applies for the `.0f` format (here idealized over the rationals). -/
def roundHalfEven (q : Rat) : Int :=
  if q - (Int.floor q : Rat) < 1/2 then Int.floor q
  else if (1 : Rat)/2 < q - (Int.floor q : Rat) then Int.floor q + 1
  else if Int.floor q % 2 = 0 then Int.floor q else Int.floor q + 1

/-- Embedding of the `:.1f` format specifier: one decimal digit, round half
to even, a `-` sign whenever the value is negative (CPython prints `-0.0`). -/
def fmtFixed1 (q : Rat) : String :=
  let n := roundHalfEven (q * 10)
  (if q < 0 then "-" else "") ++ toString (n.natAbs / 10) ++ "." ++ toString (n.natAbs % 10)

/-- Embedding of the `:.0f` format specifier: round half to even, a `-` sign
whenever the value is negative (CPython prints `-0`). -/
def fmtFixed0 (q : Rat) : String :=
  let n := roundHalfEven q
  (if q < 0 then "-" else "") ++ toString n.natAbs

/-- Decimal digits of the fraction `r / d` (0 ≤ r < d), stopping when the
remainder vanishes; bounded by `fuel` since payload floats have finite
decimal expansions of at most 17 significant digits. -/
def fracDigits (r d : Nat) : Nat → String
  | 0 => ""
  | fuel + 1 =>
      let digit := r * 10 / d
      let rest := r * 10 % d
      toString digit ++ (if rest = 0 then "" else fracDigits rest d fuel)

/-- Rendering of a payload float by `str` inside an f-string: integer part,
a point, and the (finite) decimal fraction, at least one digit. -/
def ratDec (q : Rat) : String :=
  (if q < 0 then "-" else "") ++ toString (q.num.natAbs / q.den) ++ "." ++
    fracDigits (q.num.natAbs % q.den) q.den 17

/-- Core loop of the Python `str.title()` method: a letter following a letter is
lowercased, a letter following anything else is uppercased. -/
def pyTitleGo : Bool → List Char → List Char
  | _, [] => []
  | prevAlpha, ch :: rest =>
      let ch' := if ch.isAlpha then (if prevAlpha then ch.toLower else ch.toUpper) else ch
      ch' :: pyTitleGo ch.isAlpha rest

/-- The Python `str.title()` method (ASCII letters, as in provider descriptions). -/
def pyTitle (s : String) : String :=
  ⟨pyTitleGo false s.data⟩

/-- Sunrise/sunset rendering (src/main.py:85-86): Python tests the truthiness
of the value, so both an absent key (`None`) and the value `0` give `"N/A"`. -/
def pySunStr (v : Option Int) (tz_offset : Int) : String :=
  match v with
  | some ts => if ts ≠ 0 then fmt_time ts tz_offset else "N/A"
  | none => "N/A"

/-- Wind-speed rendering: `wind.get("speed", 0)` inside an f-string — the
integer default prints as `"0"`, a payload float via `str`. -/
def speedStr (v : Option Rat) : String :=
  match v with
  | none => "0"
  | some q => ratDec q

/-- One element of the `"weather"` array: category (`"main"`) and
description. -/
structure WeatherItem where
  main : String
  description : String
deriving DecidableEq

/-- The `"main"` block of a current-conditions payload; these keys are read
with mandatory indexing in the source, so they are plain fields. -/
structure MainData where
  temp : Rat
  feels_like : Rat
  humidity : Int
  pressure : Int
deriving DecidableEq

/-- The `"sys"` block: every key the source reads from it is optional. -/
structure SysData where
  country : Option String
  sunrise : Option Int
  sunset : Option Int
deriving DecidableEq

/-- The `"wind"` block: the source reads only `speed`, with default 0. -/
structure WindData where
  speed : Option Rat
deriving DecidableEq

/-- The `"coord"` block, read with mandatory indexing in `weather_cmd`. -/
structure Coord where
  lat : Rat
  lon : Rat
deriving DecidableEq

/-- A current-conditions payload, with exactly the keys src/main.py reads:
optional fields are those read via `dict.get`. -/
structure CurrentData where
  name : Option String
  sys : Option SysData
  weather : List WeatherItem
  main : MainData
  wind : Option WindData
  timezone : Option Int
  coord : Option Coord
deriving DecidableEq

/-- The `"main"` block of one forecast entry (only `temp` is read). -/
structure FMain where
  temp : Rat
deriving DecidableEq

/-- One entry of the forecast `"list"`. -/
structure ForecastItem where
  dt : Int
  main : FMain
  weather : List WeatherItem
  wind : Option WindData
deriving DecidableEq

/-- The `"city"` block of a forecast payload; all reads are via `get`. -/
structure CityData where
  name : Option String
  country : Option String
  timezone : Option Int
deriving DecidableEq

/-- A forecast payload: `"city"` and `"list"` are both read via `get`. -/
structure ForecastData where
  city : Option CityData
  list : Option (List ForecastItem)
deriving DecidableEq

/-- Body of `format_current_weather` (src/main.py:73-96) once the mandatory
access `data["weather"][0]` has produced `weather`. -/
def currentText (data : CurrentData) (weather : WeatherItem) : String :=
  let name := data.name.getD "Your location"
  let sys := data.sys.getD ⟨none, none, none⟩
  let country := sys.country.getD ""
  let main := data.main
  let wind := data.wind.getD ⟨none⟩
  let icon := icon_for weather.main
  let tz_offset := data.timezone.getD 0
  let sunrise_str := pySunStr sys.sunrise tz_offset
  let sunset_str := pySunStr sys.sunset tz_offset
  String.intercalate "\n"
    [ icon ++ " *Current weather in " ++ name ++
        (if country = "" then "" else ", " ++ country) ++ "*",
      "• " ++ pyTitle weather.description,
      "• Temp: " ++ fmtFixed1 main.temp ++ "°C (feels " ++ fmtFixed1 main.feels_like ++ "°C)",
      "• Humidity: " ++ toString main.humidity ++ "%  • Pressure: " ++ toString main.pressure ++ " hPa",
      "• Wind: " ++ speedStr wind.speed ++ " m/s",
      "• Sunrise: " ++ sunrise_str ++ "  • Sunset: " ++ sunset_str ]

/-- Embedding of `format_current_weather` (src/main.py:73-96); `none` marks
the `IndexError` raised by `data["weather"][0]` on an empty weather list. -/
def format_current_weather (data : CurrentData) : Option String :=
  match data.weather.head? with
  | none => none
  | some weather => some (currentText data weather)

/-- One iteration of the loop in `format_forecast` (src/main.py:105-114);
`none` marks the `IndexError` from `item["weather"][0]`. -/
def forecastEntry (tz_offset : Int) (item : ForecastItem) : Option String :=
  match item.weather.head? with
  | none => none
  | some weather =>
      some (fmt_time item.dt tz_offset ++ " – " ++ icon_for weather.main ++ " " ++
        pyTitle weather.description ++ ", " ++ fmtFixed0 item.main.temp ++ "°C, wind " ++
        speedStr ((item.wind.getD ⟨none⟩).speed) ++ " m/s")

/-- The entry-collecting loop of `format_forecast`, in payload order. -/
def entriesFor (tz_offset : Int) : List ForecastItem → Option (List String)
  | [] => some []
  | item :: rest =>
      match forecastEntry tz_offset item, entriesFor tz_offset rest with
      | some line, some lines => some (line :: lines)
      | _, _ => none

/-- Embedding of `format_forecast` (src/main.py:98-116). -/
def format_forecast (data : ForecastData) : Option String :=
  let cityD := data.city.getD ⟨none, none, none⟩
  let city := cityD.name.getD "location"
  let country := cityD.country.getD ""
  let tz_offset := cityD.timezone.getD 0
  let header := "📅 *Next 36 hours for " ++ city ++
    (if country = "" then "" else ", " ++ country) ++ "*"
  match entriesFor tz_offset ((data.list.getD []).take 12) with
  | none => none
  | some entries =>
      some (header ++ "\n" ++ String.intercalate "\n" (entries.map (fun line => "• " ++ line)))

/-- A reply sent back to the chat: `reply_text` or `reply_markdown`. -/
inductive Reply where
  | text (msg : String)
  | markdown (msg : String)
deriving DecidableEq

/-- An outbound HTTP request to the weather provider. -/
inductive HttpCall where
  | currentByCity (city : String)
  | currentByCoords (lat lon : Rat)
  | forecastByCoords (lat lon : Rat)
deriving DecidableEq

/-- An exception crossing the handler boundary: `requests.HTTPError` with
its response status (raised by `raise_for_status`), or any other
exception with its detail. -/
inductive PyError where
  | httpError (status : Nat)
  | exc (detail : String)
deriving DecidableEq

/-- The provider, seen from a handler: each endpoint either returns a parsed
payload or raises. -/
structure Env where
  getCurrentByCity : String → Except PyError CurrentData
  getCurrentByCoords : Rat → Rat → Except PyError CurrentData
  getForecastByCoords : Rat → Rat → Except PyError ForecastData

/-- What one handler invocation did: replies sent, HTTP calls issued (in
order), and `logger.exception` records `(message, exception)`. -/
structure HandlerOut where
  replies : List Reply
  calls : List HttpCall
  logs : List (String × PyError)
deriving DecidableEq

def usageMsg : String := "Usage: /weather <city name>\nExample: /weather Singapore"

def cityNotFoundMsg : String := "City not found. Try a different name or share your location."

def fetchFailMsg : String := "Sorry, I couldn\x27t fetch the weather right now."

def genericMsg : String := "Something went wrong. Please try again later."

def locationFailMsg : String := "Couldn\x27t fetch weather for that location. Try again."

/-- The `except` clauses of `weather_cmd` (src/main.py:154-162): replies. -/
def except_weather (e : PyError) : List Reply :=
  match e with
  | PyError.httpError status =>
      if status == 404 then [Reply.text cityNotFoundMsg] else [Reply.text fetchFailMsg]
  | PyError.exc _ => [Reply.text genericMsg]

/-- The `except` clauses of `weather_cmd` (src/main.py:154-162): log records
(`logger.exception` is not called on the 404 path). -/
def logs_weather (e : PyError) : List (String × PyError) :=
  match e with
  | PyError.httpError status =>
      if status == 404 then [] else [("HTTP error", e)]
  | PyError.exc _ => [("Unexpected error", e)]

/-- Embedding of the `weather_cmd` handler (src/main.py:137-162). The
`try` block runs current-conditions lookup, the `["coord"]` accesses, the
forecast lookup, both formatters, then sends the two markdown replies;
any raise falls to the `except` clauses. -/
def weather_cmd (env : Env) (args : List String) : HandlerOut :=
  if args.isEmpty then
    ⟨[Reply.text usageMsg], [], []⟩
  else
    let city := String.intercalate " " args
    match env.getCurrentByCity city with
    | Except.error e => ⟨except_weather e, [HttpCall.currentByCity city], logs_weather e⟩
    | Except.ok current =>
      match current.coord with
      | none =>
          ⟨[Reply.text genericMsg], [HttpCall.currentByCity city],
           [("Unexpected error", PyError.exc "KeyError")]⟩
      | some c =>
        match env.getForecastByCoords c.lat c.lon with
        | Except.error e =>
            ⟨except_weather e,
             [HttpCall.currentByCity city, HttpCall.forecastByCoords c.lat c.lon],
             logs_weather e⟩
        | Except.ok forecast =>
          match format_current_weather current, format_forecast forecast with
          | some current_text, some forecast_text =>
              ⟨[Reply.markdown current_text, Reply.markdown forecast_text],
               [HttpCall.currentByCity city, HttpCall.forecastByCoords c.lat c.lon], []⟩
          | _, _ =>
              ⟨[Reply.text genericMsg],
               [HttpCall.currentByCity city, HttpCall.forecastByCoords c.lat c.lon],
               [("Unexpected error", PyError.exc "IndexError")]⟩

/-- Embedding of the `handle_location` handler (src/main.py:164-177): a
single `except Exception` clause sends one generic message and logs. -/
def handle_location (env : Env) (lat lon : Rat) : HandlerOut :=
  match env.getCurrentByCoords lat lon with
  | Except.error e =>
      ⟨[Reply.text locationFailMsg], [HttpCall.currentByCoords lat lon],
       [("Location handling error", e)]⟩
  | Except.ok current =>
    match env.getForecastByCoords lat lon with
    | Except.error e =>
        ⟨[Reply.text locationFailMsg],
         [HttpCall.currentByCoords lat lon, HttpCall.forecastByCoords lat lon],
         [("Location handling error", e)]⟩
    | Except.ok forecast =>
      match format_current_weather current, format_forecast forecast with
      | some current_text, some forecast_text =>
          ⟨[Reply.markdown current_text, Reply.markdown forecast_text],
           [HttpCall.currentByCoords lat lon, HttpCall.forecastByCoords lat lon], []⟩
      | _, _ =>
          ⟨[Reply.text locationFailMsg],
           [HttpCall.currentByCoords lat lon, HttpCall.forecastByCoords lat lon],
           [("Location handling error", PyError.exc "IndexError")]⟩

/- Concrete payloads and provider environments used by the closed witness
and counterexample theorems below. -/

def env404 : Env :=
  ⟨fun _ => Except.error (PyError.httpError 404),
   fun _ _ => Except.error (PyError.httpError 404),
   fun _ _ => Except.error (PyError.httpError 404)⟩

def exCoord : Coord := ⟨515/10, -12/100⟩

def exCurrent : CurrentData :=
  ⟨some "London", some ⟨some "GB", some 1700000000, some 1700035000⟩,
   [⟨"Clouds", "overcast clouds"⟩], ⟨153/10, 141/10, 80, 1012⟩,
   some ⟨some (32/10)⟩, some 0, some exCoord⟩

def envCx : Env :=
  ⟨fun _ => Except.ok exCurrent,
   fun _ _ => Except.error (PyError.exc "unused"),
   fun _ _ => Except.error (PyError.httpError 404)⟩

def envErr500 : Env :=
  ⟨fun _ => Except.error (PyError.httpError 500),
   fun _ _ => Except.error (PyError.httpError 500),
   fun _ _ => Except.error (PyError.httpError 500)⟩

def envB : Env :=
  ⟨fun _ => Except.ok exCurrent,
   fun _ _ => Except.error (PyError.httpError 500),
   fun _ _ => Except.error (PyError.exc "boom")⟩

def envLoc : Env :=
  ⟨fun _ => Except.ok exCurrent,
   fun _ _ => Except.ok exCurrent,
   fun _ _ => Except.error (PyError.httpError 404)⟩

def exW : WeatherItem := ⟨"Clear", "clear sky"⟩

def exNoSun : CurrentData :=
  ⟨some "Oslo", some ⟨some "NO", none, none⟩, [exW], ⟨1, 2, 3, 4⟩, some ⟨some 5⟩, some 0, none⟩

def exZeroSun : CurrentData :=
  ⟨none, some ⟨none, some 0, some 0⟩, [exW], ⟨1, 2, 3, 4⟩, none, none, none⟩

def exZeroSunOut : String := (format_current_weather exZeroSun).getD ""

def exBare : CurrentData := ⟨none, none, [exW], ⟨1, 2, 3, 4⟩, none, none, none⟩

def exCurrentOut : String := (format_current_weather exCurrent).getD ""

def exForecastGB : ForecastData := ⟨some ⟨some "London", some "GB", some 0⟩, some []⟩

def exForecastGBOut : String := (format_forecast exForecastGB).getD ""

def exItem : ForecastItem := ⟨0, ⟨20⟩, [⟨"Rain", "light rain"⟩], some ⟨some 3⟩⟩

def exForecastOne : ForecastData := ⟨some ⟨some "London", some "GB", some 0⟩, some [exItem]⟩

def exForecastOneOut : String := (format_forecast exForecastOne).getD ""

/- ---------- helper lemmas ---------- -/

theorem format_current_eq_some (d : CurrentData) (w : WeatherItem) (l : List WeatherItem)
    (hw : d.weather = w :: l) :
    format_current_weather d = some (currentText d w) := by
  unfold format_current_weather
  rw [hw]
  rfl

theorem format_current_inv (d : CurrentData) (s : String)
    (h : format_current_weather d = some s) :
    ∃ w l, d.weather = w :: l ∧ s = currentText d w := by
  unfold format_current_weather at h
  cases hw : d.weather with
  | nil => rw [hw] at h; simp at h
  | cons w l =>
      rw [hw] at h
      simp only [List.head?] at h
      exact ⟨w, l, rfl, (Option.some.injEq _ _ ▸ h).symm⟩

theorem entriesFor_sound (tz : Int) (l : List ForecastItem) (lines : List String)
    (h : entriesFor tz l = some lines) :
    List.Forall₂ (fun item line => forecastEntry tz item = some line) l lines := by
  induction l generalizing lines with
  | nil =>
      unfold entriesFor at h
      cases h
      exact List.Forall₂.nil
  | cons item rest ih =>
      unfold entriesFor at h
      cases hF : forecastEntry tz item with
      | none => rw [hF] at h; simp at h
      | some line =>
          cases hR : entriesFor tz rest with
          | none => rw [hF, hR] at h; simp at h
          | some ls =>
              rw [hF, hR] at h
              simp only [Option.some.injEq] at h
              cases h
              exact List.Forall₂.cons hF (ih ls hR)

theorem format_forecast_inv (d : ForecastData) (s : String)
    (h : format_forecast d = some s) :
    ∃ entries,
      entriesFor ((d.city.getD ⟨none, none, none⟩).timezone.getD 0) ((d.list.getD []).take 12) =
        some entries ∧
      s = "📅 *Next 36 hours for " ++ (d.city.getD ⟨none, none, none⟩).name.getD "location" ++
          (if (d.city.getD ⟨none, none, none⟩).country.getD "" = "" then ""
           else ", " ++ (d.city.getD ⟨none, none, none⟩).country.getD "") ++ "*" ++ "\n" ++
          String.intercalate "\n" (entries.map (fun line => "• " ++ line)) := by
  simp only [format_forecast] at h
  cases hE : entriesFor ((d.city.getD ⟨none, none, none⟩).timezone.getD 0)
      ((d.list.getD []).take 12) with
  | none => rw [hE] at h; simp at h
  | some entries =>
      rw [hE] at h
      simp only [Option.some.injEq] at h
      exact ⟨entries, rfl, h.symm⟩

theorem roundHalfEven_close (q : Rat) : |q - (roundHalfEven q : Rat)| ≤ 1/2 := by
  have h0 : (Int.floor q : Rat) ≤ q := Int.floor_le q
  have h1 : q < Int.floor q + 1 := Int.lt_floor_add_one q
  unfold roundHalfEven
  split_ifs with hlt hgt hev
  · rw [abs_le]; constructor <;> linarith
  · rw [abs_le]; push_cast; constructor <;> linarith
  · rw [abs_le]; constructor <;> linarith
  · rw [abs_le]; push_cast; constructor <;> linarith

/-- C4: when the city-weather intent is invoked with an empty city argument,
the handler replies with the usage message and issues no outbound HTTP
call (and logs nothing). -/
theorem C4_empty_args_usage (env : Env) :
    weather_cmd env [] = ⟨[Reply.text usageMsg], [], []⟩ := rfl

/-- C8: `fmt_time` is deterministic — the same `(ts, offset)` pair always
renders the same string — and increasing the offset by `n` seconds renders
the same local time as shifting the timestamp itself by `n` seconds, so the
rendered time moves by exactly `n` seconds. -/
theorem C8_fmt_time_shift (ts off n : Int) :
    fmt_time ts off = fmt_time ts off ∧
    fmt_time ts (off + n) = fmt_time (ts + n) off :=
  ⟨rfl, congrArg fmtEpoch (by omega)⟩

/-- C1: for every city string (any nonempty argument list), when the
current-conditions request raises an HTTPError with status 404, `weather_cmd`
replies with exactly the "city not found" message, and the HTTP trace is just
the one current-conditions call — no forecast call is performed. -/
theorem C1_notfound_no_forecast (env : Env) (args : List String) (h : args ≠ [])
    (h404 : env.getCurrentByCity (String.intercalate " " args) =
      Except.error (PyError.httpError 404)) :
    (weather_cmd env args).replies = [Reply.text cityNotFoundMsg] ∧
    (weather_cmd env args).calls =
      [HttpCall.currentByCity (String.intercalate " " args)] := by
  have hne : args.isEmpty = false := by
    cases args with
    | nil => exact absurd rfl h
    | cons a l => rfl
  simp only [weather_cmd, hne, Bool.false_eq_true, if_false, h404]
  exact ⟨rfl, trivial⟩

theorem C1_notfound_no_forecast_witness :
    (weather_cmd env404 ["Paris"]).replies = [Reply.text cityNotFoundMsg] ∧
    (weather_cmd env404 ["Paris"]).calls =
      [HttpCall.currentByCity (String.intercalate " " ["Paris"])] :=
  C1_notfound_no_forecast env404 ["Paris"] (by decide) rfl

/-- C3: `icon_for` coincides with case-insensitive first-match lookup in the
ordered table `iconTable` (fallback 🌡️), and in particular any category
containing "rain" (case-insensitively) whose lowercase form contains neither
"thunder" nor "drizzle" — the two earlier rules, which win by table order —
maps to 🌧️. -/
theorem C3_icon_table (s : String) :
    icon_for s = iconSpec s ∧
    (containsSub (pyLower s) "rain" = true →
      containsSub (pyLower s) "thunder" = false →
      containsSub (pyLower s) "drizzle" = false →
      icon_for s = "🌧️") := by
  constructor
  · simp only [icon_for, iconSpec, iconTable, firstIcon, List.any_cons, List.any_nil,
      Bool.or_false]
    cases hA : containsSub (pyLower s) "mist" <;>
      cases hB : containsSub (pyLower s) "fog" <;>
        cases hC : containsSub (pyLower s) "haze" <;>
          cases hD : containsSub (pyLower s) "smoke" <;>
            simp [hA, hB, hC, hD]
  · intro h1 h2 h3
    simp [icon_for, h1, h2, h3]

theorem C3_icon_table_witness :
    (icon_for "Heavy Rain" = iconSpec "Heavy Rain") ∧ icon_for "Heavy Rain" = "🌧️" :=
  ⟨(C3_icon_table "Heavy Rain").1,
   (C3_icon_table "Heavy Rain").2 (by decide) (by decide) (by decide)⟩

theorem except_weather_not_404 (e : PyError) (hne : e ≠ PyError.httpError 404) :
    (except_weather e = [Reply.text fetchFailMsg] ∨
     except_weather e = [Reply.text genericMsg]) ∧
    except_weather e ≠ [Reply.text cityNotFoundMsg] ∧
    (logs_weather e).map Prod.snd = [e] := by
  cases e with
  | httpError n =>
      have hb : (n == 404) = false := by
        simp only [beq_eq_false_iff_ne, ne_eq]
        intro hh
        exact hne (by rw [hh])
      have he : except_weather (PyError.httpError n) = [Reply.text fetchFailMsg] := by
        simp [except_weather, hb]
      have hl : logs_weather (PyError.httpError n) = [("HTTP error", PyError.httpError n)] := by
        simp [logs_weather, hb]
      refine ⟨Or.inl he, ?_, ?_⟩
      · rw [he]
        decide
      · rw [hl]
        rfl
  | exc detail =>
      refine ⟨Or.inr rfl, ?_, rfl⟩
      intro hc
      have hc' : [Reply.text genericMsg] = [Reply.text cityNotFoundMsg] := hc
      exact absurd hc' (by decide)

/-- C2 (amended): for every error other than an HTTPError with status 404 —
whether raised by the city lookup or by the forecast call — `weather_cmd`
replies with one of the two generic failure messages (never the city-not-found
message) and sends the full error to the log; `handle_location` replies with
its generic message and logs for every error `e'` — with no restriction on
`e'`, so 404s included — whether raised by its current-conditions call or by
its forecast call. (The unamended claim is refuted by
`C2_counterexample_forecast_404`: a 404 raised by the forecast call of
`weather_cmd` also produces the city-not-found message.) -/
theorem C2_generic_error_policy (env : Env) (args : List String) (e : PyError)
    (hargs : args ≠ []) (hne : e ≠ PyError.httpError 404) :
    (env.getCurrentByCity (String.intercalate " " args) = Except.error e →
      ((weather_cmd env args).replies = [Reply.text fetchFailMsg] ∨
       (weather_cmd env args).replies = [Reply.text genericMsg]) ∧
      (weather_cmd env args).replies ≠ [Reply.text cityNotFoundMsg] ∧
      (weather_cmd env args).logs.map Prod.snd = [e]) ∧
    (∀ (current : CurrentData) (c : Coord),
      env.getCurrentByCity (String.intercalate " " args) = Except.ok current →
      current.coord = some c →
      env.getForecastByCoords c.lat c.lon = Except.error e →
      ((weather_cmd env args).replies = [Reply.text fetchFailMsg] ∨
       (weather_cmd env args).replies = [Reply.text genericMsg]) ∧
      (weather_cmd env args).replies ≠ [Reply.text cityNotFoundMsg] ∧
      (weather_cmd env args).logs.map Prod.snd = [e]) ∧
    (∀ (lat lon : Rat) (e' : PyError),
      env.getCurrentByCoords lat lon = Except.error e' →
      (handle_location env lat lon).replies = [Reply.text locationFailMsg] ∧
      (handle_location env lat lon).logs = [("Location handling error", e')]) ∧
    (∀ (lat lon : Rat) (current : CurrentData) (e' : PyError),
      env.getCurrentByCoords lat lon = Except.ok current →
      env.getForecastByCoords lat lon = Except.error e' →
      (handle_location env lat lon).replies = [Reply.text locationFailMsg] ∧
      (handle_location env lat lon).logs = [("Location handling error", e')]) := by
  have hisEmpty : args.isEmpty = false := by
    cases args with
    | nil => exact absurd rfl hargs
    | cons a l => rfl
  refine ⟨?_, ?_, ?_, ?_⟩
  · intro h
    simp only [weather_cmd, hisEmpty, Bool.false_eq_true, if_false, h]
    exact except_weather_not_404 e hne
  · intro current c hok hcoord hfc
    simp only [weather_cmd, hisEmpty, Bool.false_eq_true, if_false, hok, hcoord, hfc]
    exact except_weather_not_404 e hne
  · intro lat lon e' h
    simp [handle_location, h]
  · intro lat lon current e' hok hfc
    simp [handle_location, hok, hfc]

/-- C2 (counterexample to the claim as stated): in `envCx` the city lookup
succeeds and the forecast call raises an HTTPError with the non-success
status 404; the claim demands a generic failure reply distinct from the
"city not found" message, but `weather_cmd` replies with exactly the
"city not found" message, which is neither generic message. -/
theorem C2_counterexample_forecast_404 :
    envCx.getForecastByCoords exCoord.lat exCoord.lon =
      Except.error (PyError.httpError 404) ∧
    (weather_cmd envCx ["Paris"]).replies = [Reply.text cityNotFoundMsg] ∧
    cityNotFoundMsg ≠ fetchFailMsg ∧ cityNotFoundMsg ≠ genericMsg :=
  ⟨rfl, rfl, by decide, by decide⟩

theorem C2_generic_error_policy_witness :
    (((weather_cmd envErr500 ["Paris"]).replies = [Reply.text fetchFailMsg] ∨
      (weather_cmd envErr500 ["Paris"]).replies = [Reply.text genericMsg]) ∧
     (weather_cmd envErr500 ["Paris"]).replies ≠ [Reply.text cityNotFoundMsg] ∧
     (weather_cmd envErr500 ["Paris"]).logs.map Prod.snd = [PyError.httpError 500]) ∧
    (((weather_cmd envB ["Paris"]).replies = [Reply.text fetchFailMsg] ∨
      (weather_cmd envB ["Paris"]).replies = [Reply.text genericMsg]) ∧
     (weather_cmd envB ["Paris"]).replies ≠ [Reply.text cityNotFoundMsg] ∧
     (weather_cmd envB ["Paris"]).logs.map Prod.snd = [PyError.exc "boom"]) ∧
    ((handle_location env404 1 2).replies = [Reply.text locationFailMsg] ∧
     (handle_location env404 1 2).logs =
       [("Location handling error", PyError.httpError 404)]) ∧
    ((handle_location envLoc 1 2).replies = [Reply.text locationFailMsg] ∧
     (handle_location envLoc 1 2).logs =
       [("Location handling error", PyError.httpError 404)]) :=
  ⟨(C2_generic_error_policy envErr500 ["Paris"] (PyError.httpError 500)
      (by decide) (by decide)).1 rfl,
   (C2_generic_error_policy envB ["Paris"] (PyError.exc "boom")
      (by decide) (by decide)).2.1 exCurrent exCoord rfl rfl rfl,
   (C2_generic_error_policy env404 ["Paris"] (PyError.httpError 500)
      (by decide) (by decide)).2.2.1 1 2 (PyError.httpError 404) rfl,
   (C2_generic_error_policy envLoc ["Paris"] (PyError.httpError 500)
      (by decide) (by decide)).2.2.2 1 2 exCurrent (PyError.httpError 404) rfl rfl⟩

theorem currentText_expand (d : CurrentData) (w : WeatherItem) :
    currentText d w =
      icon_for w.main ++ " *Current weather in " ++ d.name.getD "Your location" ++
        (if (d.sys.getD ⟨none, none, none⟩).country.getD "" = "" then ""
         else ", " ++ (d.sys.getD ⟨none, none, none⟩).country.getD "") ++ "*" ++ "\n" ++
      ("• " ++ pyTitle w.description) ++ "\n" ++
      ("• Temp: " ++ fmtFixed1 d.main.temp ++ "°C (feels " ++
        fmtFixed1 d.main.feels_like ++ "°C)") ++ "\n" ++
      ("• Humidity: " ++ toString d.main.humidity ++ "%  • Pressure: " ++
        toString d.main.pressure ++ " hPa") ++ "\n" ++
      ("• Wind: " ++ speedStr ((d.wind.getD ⟨none⟩).speed) ++ " m/s") ++ "\n" ++
      ("• Sunrise: " ++ pySunStr (d.sys.getD ⟨none, none, none⟩).sunrise (d.timezone.getD 0) ++
        "  • Sunset: " ++ pySunStr (d.sys.getD ⟨none, none, none⟩).sunset (d.timezone.getD 0)) :=
  rfl

theorem pySunStr_zero (tz : Int) : pySunStr (some 0) tz = "N/A" := rfl

/-- C5: on a well-formed current-conditions payload (nonempty weather list)
in which the sunrise and sunset fields are absent, `format_current_weather`
does not raise (returns `some`), and the output ends with the line that has
the literal "N/A" in both the sunrise and the sunset position. -/
theorem C5_absent_sun_na (d : CurrentData) (hw : d.weather ≠ [])
    (hsr : (d.sys.getD ⟨none, none, none⟩).sunrise = none)
    (hss : (d.sys.getD ⟨none, none, none⟩).sunset = none) :
    ∃ s pre, format_current_weather d = some s ∧
      s = pre ++ "• Sunrise: N/A  • Sunset: N/A" := by
  obtain ⟨w, l, hcons⟩ : ∃ w l, d.weather = w :: l := by
    cases hD : d.weather with
    | nil => exact absurd hD hw
    | cons w l => exact ⟨w, l, rfl⟩
  refine ⟨currentText d w,
    icon_for w.main ++ " *Current weather in " ++ d.name.getD "Your location" ++
      (if (d.sys.getD ⟨none, none, none⟩).country.getD "" = "" then ""
       else ", " ++ (d.sys.getD ⟨none, none, none⟩).country.getD "") ++ "*" ++ "\n" ++
    "• " ++ pyTitle w.description ++ "\n" ++
    "• Temp: " ++ fmtFixed1 d.main.temp ++ "°C (feels " ++ fmtFixed1 d.main.feels_like ++
      "°C)" ++ "\n" ++
    "• Humidity: " ++ toString d.main.humidity ++ "%  • Pressure: " ++
      toString d.main.pressure ++ " hPa" ++ "\n" ++
    "• Wind: " ++ speedStr ((d.wind.getD ⟨none⟩).speed) ++ " m/s" ++ "\n",
    format_current_eq_some d w l hcons, ?_⟩
  rw [currentText_expand, hsr, hss]
  simp only [pySunStr, String.append_assoc]
  rfl

/-- C9: when the sunrise (resp. sunset) field is present with value 0 — the
Unix epoch — `format_current_weather` renders "N/A" in that position rather
than a formatted time, because the source tests the truthiness of the value,
not key membership. -/
theorem C9_zero_epoch_na (d : CurrentData) (s : String)
    (h : format_current_weather d = some s) :
    ((d.sys.getD ⟨none, none, none⟩).sunrise = some 0 →
      ∃ pre post, s = pre ++ "• Sunrise: N/A  • Sunset: " ++ post) ∧
    ((d.sys.getD ⟨none, none, none⟩).sunset = some 0 →
      ∃ pre, s = pre ++ "  • Sunset: N/A") := by
  obtain ⟨w, l, hw, rfl⟩ := format_current_inv d s h
  constructor
  · intro hsr
    refine ⟨icon_for w.main ++ " *Current weather in " ++ d.name.getD "Your location" ++
        (if (d.sys.getD ⟨none, none, none⟩).country.getD "" = "" then ""
         else ", " ++ (d.sys.getD ⟨none, none, none⟩).country.getD "") ++ "*" ++ "\n" ++
      "• " ++ pyTitle w.description ++ "\n" ++
      "• Temp: " ++ fmtFixed1 d.main.temp ++ "°C (feels " ++ fmtFixed1 d.main.feels_like ++
        "°C)" ++ "\n" ++
      "• Humidity: " ++ toString d.main.humidity ++ "%  • Pressure: " ++
        toString d.main.pressure ++ " hPa" ++ "\n" ++
      "• Wind: " ++ speedStr ((d.wind.getD ⟨none⟩).speed) ++ " m/s" ++ "\n",
      pySunStr (d.sys.getD ⟨none, none, none⟩).sunset (d.timezone.getD 0), ?_⟩
    rw [currentText_expand, hsr, pySunStr_zero]
    simp only [String.append_assoc]
    rfl
  · intro hss
    refine ⟨icon_for w.main ++ " *Current weather in " ++ d.name.getD "Your location" ++
        (if (d.sys.getD ⟨none, none, none⟩).country.getD "" = "" then ""
         else ", " ++ (d.sys.getD ⟨none, none, none⟩).country.getD "") ++ "*" ++ "\n" ++
      "• " ++ pyTitle w.description ++ "\n" ++
      "• Temp: " ++ fmtFixed1 d.main.temp ++ "°C (feels " ++ fmtFixed1 d.main.feels_like ++
        "°C)" ++ "\n" ++
      "• Humidity: " ++ toString d.main.humidity ++ "%  • Pressure: " ++
        toString d.main.pressure ++ " hPa" ++ "\n" ++
      "• Wind: " ++ speedStr ((d.wind.getD ⟨none⟩).speed) ++ " m/s" ++ "\n" ++
      "• Sunrise: " ++ pySunStr (d.sys.getD ⟨none, none, none⟩).sunrise (d.timezone.getD 0), ?_⟩
    rw [currentText_expand, hss, pySunStr_zero]
    simp only [String.append_assoc]
    rfl

/-- C10: under the precondition of `format_current_weather` (nonempty weather
list; the mandatory `main` fields are present by construction) the formatter
never fails, a missing location name renders as "Your location", a missing
wind speed renders as 0, and a missing UTC offset is treated exactly as
offset 0. -/
theorem C10_optional_defaults (d : CurrentData) (hw : d.weather ≠ []) :
    (format_current_weather d).isSome = true ∧
    (d.name = none → ∃ w rest, d.weather.head? = some w ∧
      format_current_weather d =
        some (icon_for w.main ++ " *Current weather in Your location" ++ rest)) ∧
    ((d.wind.getD ⟨none⟩).speed = none → ∃ s pre post,
      format_current_weather d = some s ∧ s = pre ++ "• Wind: 0 m/s" ++ post) ∧
    (d.timezone = none →
      format_current_weather d =
        format_current_weather ⟨d.name, d.sys, d.weather, d.main, d.wind, some 0, d.coord⟩) := by
  obtain ⟨w, l, hcons⟩ : ∃ w l, d.weather = w :: l := by
    cases hD : d.weather with
    | nil => exact absurd hD hw
    | cons w l => exact ⟨w, l, rfl⟩
  have hfc := format_current_eq_some d w l hcons
  refine ⟨by rw [hfc]; rfl, ?_, ?_, ?_⟩
  · intro hname
    refine ⟨w,
      (if (d.sys.getD ⟨none, none, none⟩).country.getD "" = "" then ""
       else ", " ++ (d.sys.getD ⟨none, none, none⟩).country.getD "") ++ "*" ++ "\n" ++
      "• " ++ pyTitle w.description ++ "\n" ++
      "• Temp: " ++ fmtFixed1 d.main.temp ++ "°C (feels " ++ fmtFixed1 d.main.feels_like ++
        "°C)" ++ "\n" ++
      "• Humidity: " ++ toString d.main.humidity ++ "%  • Pressure: " ++
        toString d.main.pressure ++ " hPa" ++ "\n" ++
      "• Wind: " ++ speedStr ((d.wind.getD ⟨none⟩).speed) ++ " m/s" ++ "\n" ++
      "• Sunrise: " ++ pySunStr (d.sys.getD ⟨none, none, none⟩).sunrise (d.timezone.getD 0) ++
        "  • Sunset: " ++ pySunStr (d.sys.getD ⟨none, none, none⟩).sunset (d.timezone.getD 0),
      by rw [hcons]; rfl, ?_⟩
    rw [hfc, currentText_expand, hname]
    simp only [String.append_assoc]
    rfl
  · intro hspeed
    refine ⟨currentText d w,
      icon_for w.main ++ " *Current weather in " ++ d.name.getD "Your location" ++
        (if (d.sys.getD ⟨none, none, none⟩).country.getD "" = "" then ""
         else ", " ++ (d.sys.getD ⟨none, none, none⟩).country.getD "") ++ "*" ++ "\n" ++
      "• " ++ pyTitle w.description ++ "\n" ++
      "• Temp: " ++ fmtFixed1 d.main.temp ++ "°C (feels " ++ fmtFixed1 d.main.feels_like ++
        "°C)" ++ "\n" ++
      "• Humidity: " ++ toString d.main.humidity ++ "%  • Pressure: " ++
        toString d.main.pressure ++ " hPa" ++ "\n",
      "\n" ++
      "• Sunrise: " ++ pySunStr (d.sys.getD ⟨none, none, none⟩).sunrise (d.timezone.getD 0) ++
        "  • Sunset: " ++ pySunStr (d.sys.getD ⟨none, none, none⟩).sunset (d.timezone.getD 0),
      hfc, ?_⟩
    rw [currentText_expand, hspeed]
    simp only [speedStr, String.append_assoc]
    rfl
  · intro htz
    rw [hfc,
      format_current_eq_some ⟨d.name, d.sys, d.weather, d.main, d.wind, some 0, d.coord⟩ w l hcons]
    simp [currentText, htz]

/-- C6: for every forecast payload that formats successfully, the output is
the header line followed by at most 12 bulleted entry lines, one per (capped)
entry in payload order, each of the shape
"<formatted time> – <icon> <description>, <temp>°C, wind <speed> m/s", the
temperature rounded to the nearest integer (`roundHalfEven`, at distance at
most 1/2 from the payload value). -/
theorem C6_forecast_shape (d : ForecastData) (s : String)
    (h : format_forecast d = some s) :
    ∃ entries : List String,
      entries.length ≤ 12 ∧
      s = "📅 *Next 36 hours for " ++ (d.city.getD ⟨none, none, none⟩).name.getD "location" ++
          (if (d.city.getD ⟨none, none, none⟩).country.getD "" = "" then ""
           else ", " ++ (d.city.getD ⟨none, none, none⟩).country.getD "") ++ "*" ++ "\n" ++
          String.intercalate "\n" (entries.map (fun line => "• " ++ line)) ∧
      List.Forall₂ (fun (item : ForecastItem) (line : String) => ∃ wi,
          item.weather.head? = some wi ∧
          |item.main.temp - (roundHalfEven item.main.temp : Rat)| ≤ 1/2 ∧
          line = fmt_time item.dt ((d.city.getD ⟨none, none, none⟩).timezone.getD 0) ++ " – " ++
            icon_for wi.main ++ " " ++ pyTitle wi.description ++ ", " ++
            fmtFixed0 item.main.temp ++ "°C, wind " ++
            speedStr ((item.wind.getD ⟨none⟩).speed) ++ " m/s")
        ((d.list.getD []).take 12) entries := by
  obtain ⟨entries, hE, rfl⟩ := format_forecast_inv d s h
  have hF := entriesFor_sound _ _ _ hE
  refine ⟨entries, ?_, rfl, ?_⟩
  · calc entries.length = ((d.list.getD []).take 12).length :=
        (List.Forall₂.length_eq hF).symm
      _ ≤ 12 := List.length_take_le _ _
  · refine List.Forall₂.imp ?_ hF
    intro item line hfe
    unfold forecastEntry at hfe
    cases hwi : item.weather.head? with
    | none => rw [hwi] at hfe; exact absurd hfe (by simp)
    | some wi =>
        rw [hwi] at hfe
        simp only [Option.some.injEq] at hfe
        exact ⟨wi, rfl, roundHalfEven_close _, hfe.symm⟩

/-- C7: in the title line of `format_current_weather` and the header line of
`format_forecast`, the ", <country>" segment appears exactly when the country code
is a nonempty string, and is omitted when it is empty (or absent). -/
theorem C7_country_segment (d : CurrentData) (f : ForecastData) (s t : String)
    (hs : format_current_weather d = some s)
    (ht : format_forecast f = some t) :
    (∃ w rest, d.weather.head? = some w ∧
      s = icon_for w.main ++ " *Current weather in " ++ d.name.getD "Your location" ++
        (if (d.sys.getD ⟨none, none, none⟩).country.getD "" = "" then ""
         else ", " ++ (d.sys.getD ⟨none, none, none⟩).country.getD "") ++ "*" ++ "\n" ++ rest) ∧
    (∃ rest,
      t = "📅 *Next 36 hours for " ++ (f.city.getD ⟨none, none, none⟩).name.getD "location" ++
        (if (f.city.getD ⟨none, none, none⟩).country.getD "" = "" then ""
         else ", " ++ (f.city.getD ⟨none, none, none⟩).country.getD "") ++ "*" ++ rest) := by
  constructor
  · obtain ⟨w, l, hw, rfl⟩ := format_current_inv d s hs
    refine ⟨w,
      "• " ++ pyTitle w.description ++ "\n" ++
      "• Temp: " ++ fmtFixed1 d.main.temp ++ "°C (feels " ++ fmtFixed1 d.main.feels_like ++
        "°C)" ++ "\n" ++
      "• Humidity: " ++ toString d.main.humidity ++ "%  • Pressure: " ++
        toString d.main.pressure ++ " hPa" ++ "\n" ++
      "• Wind: " ++ speedStr ((d.wind.getD ⟨none⟩).speed) ++ " m/s" ++ "\n" ++
      "• Sunrise: " ++ pySunStr (d.sys.getD ⟨none, none, none⟩).sunrise (d.timezone.getD 0) ++
        "  • Sunset: " ++ pySunStr (d.sys.getD ⟨none, none, none⟩).sunset (d.timezone.getD 0),
      by rw [hw]; rfl, ?_⟩
    rw [currentText_expand]
    simp only [String.append_assoc]
  · obtain ⟨entries, hE, rfl⟩ := format_forecast_inv f t ht
    refine ⟨"\n" ++ String.intercalate "\n" (entries.map (fun line => "• " ++ line)), ?_⟩
    simp only [String.append_assoc]

theorem C5_absent_sun_na_witness :
    ∃ s pre, format_current_weather exNoSun = some s ∧
      s = pre ++ "• Sunrise: N/A  • Sunset: N/A" :=
  C5_absent_sun_na exNoSun (by decide) rfl rfl

theorem C9_zero_epoch_na_witness :
    (∃ pre post, exZeroSunOut = pre ++ "• Sunrise: N/A  • Sunset: " ++ post) ∧
    (∃ pre, exZeroSunOut = pre ++ "  • Sunset: N/A") :=
  ⟨(C9_zero_epoch_na exZeroSun exZeroSunOut rfl).1 rfl,
   (C9_zero_epoch_na exZeroSun exZeroSunOut rfl).2 rfl⟩

theorem C10_optional_defaults_witness :
    (format_current_weather exBare).isSome = true ∧
    (∃ w rest, exBare.weather.head? = some w ∧
      format_current_weather exBare =
        some (icon_for w.main ++ " *Current weather in Your location" ++ rest)) ∧
    (∃ s pre post, format_current_weather exBare = some s ∧
      s = pre ++ "• Wind: 0 m/s" ++ post) ∧
    (format_current_weather exBare =
      format_current_weather
        ⟨exBare.name, exBare.sys, exBare.weather, exBare.main, exBare.wind, some 0,
         exBare.coord⟩) :=
  ⟨(C10_optional_defaults exBare (by decide)).1,
   (C10_optional_defaults exBare (by decide)).2.1 rfl,
   (C10_optional_defaults exBare (by decide)).2.2.1 rfl,
   (C10_optional_defaults exBare (by decide)).2.2.2 rfl⟩

theorem C6_forecast_shape_witness :
    ∃ entries : List String,
      entries.length ≤ 12 ∧
      exForecastOneOut = "📅 *Next 36 hours for " ++
          (exForecastOne.city.getD ⟨none, none, none⟩).name.getD "location" ++
          (if (exForecastOne.city.getD ⟨none, none, none⟩).country.getD "" = "" then ""
           else ", " ++ (exForecastOne.city.getD ⟨none, none, none⟩).country.getD "") ++
          "*" ++ "\n" ++
          String.intercalate "\n" (entries.map (fun line => "• " ++ line)) ∧
      List.Forall₂ (fun (item : ForecastItem) (line : String) => ∃ wi,
          item.weather.head? = some wi ∧
          |item.main.temp - (roundHalfEven item.main.temp : Rat)| ≤ 1/2 ∧
          line = fmt_time item.dt
              ((exForecastOne.city.getD ⟨none, none, none⟩).timezone.getD 0) ++ " – " ++
            icon_for wi.main ++ " " ++ pyTitle wi.description ++ ", " ++
            fmtFixed0 item.main.temp ++ "°C, wind " ++
            speedStr ((item.wind.getD ⟨none⟩).speed) ++ " m/s")
        ((exForecastOne.list.getD []).take 12) entries :=
  C6_forecast_shape exForecastOne exForecastOneOut rfl

theorem C7_country_segment_witness :
    (∃ w rest, exCurrent.weather.head? = some w ∧
      exCurrentOut = icon_for w.main ++ " *Current weather in " ++
        exCurrent.name.getD "Your location" ++
        (if (exCurrent.sys.getD ⟨none, none, none⟩).country.getD "" = "" then ""
         else ", " ++ (exCurrent.sys.getD ⟨none, none, none⟩).country.getD "") ++
        "*" ++ "\n" ++ rest) ∧
    (∃ rest,
      exForecastGBOut = "📅 *Next 36 hours for " ++
        (exForecastGB.city.getD ⟨none, none, none⟩).name.getD "location" ++
        (if (exForecastGB.city.getD ⟨none, none, none⟩).country.getD "" = "" then ""
         else ", " ++ (exForecastGB.city.getD ⟨none, none, none⟩).country.getD "") ++
        "*" ++ rest) :=
  C7_country_segment exCurrent exForecastGB exCurrentOut exForecastGBOut rfl rfl
